import Mathlib

/-!
Verification of `src/frontend/src/components/chat/MessageBubble.tsx`.

The component is a pure render function of its props plus one piece of
local boolean state (`showRawResponse`, from `useState(false)`). We embed
the render output as a record whose fields follow the JSX tree top to
bottom; each conditionally rendered child (`cond && <node>`) becomes an
`Option` field. The platform pipeline
`new Date(ts).toLocaleTimeString('ar-SA', {hour, minute})` is modelled as
an abstract total function `fmt : String → String`, universally
quantified in the theorems: the component never inspects the timestamp
itself, it only hands it to this formatter.
-/

namespace MessageBubbleSpec

/-- The `role` prop: `'user' | 'assistant'`. -/
inductive Role where
  | user
  | assistant
deriving DecidableEq, Repr

/-- The props of `MessageBubble` (`MessageBubbleProps` in the source).
`timestamp?: string` is optional, hence `Option String`. -/
structure MessageBubbleProps where
  role : Role
  content : String
  raw_model_response : String
  timestamp : Option String
deriving DecidableEq, Repr

/-- JavaScript truthiness of a string: falsy exactly when empty.
Models the guards `raw_model_response && ...` and `timestamp && ...`. -/
def strTruthy (s : String) : Bool := s != ""

/-- Truthiness of the optional `timestamp` prop: `undefined` and `""`
are both falsy. -/
def optStrTruthy : Option String → Bool
  | none => false
  | some s => strTruthy s

/-- The `cn` class-combining helper, modelled as joining the class
fragments with single spaces. -/
def cn (classes : List String) : String := " ".intercalate classes

/-- The avatar glyph: `<User/>` for user, `<Bot/>` for assistant. -/
inductive AvatarIcon where
  | user
  | bot
deriving DecidableEq, Repr

/-- The rendered disclosure toggle button. -/
structure DisclosureButton where
  className : String
  label : String
deriving DecidableEq, Repr

/-- The rendered raw-response panel. -/
structure RawPanel where
  className : String
  text : String
deriving DecidableEq, Repr

/-- The rendered timestamp label. -/
structure TimeLabel where
  className : String
  text : String
deriving DecidableEq, Repr

/-- The label shown when `showRawResponse` is false: localized
"show details" (Arabic, from the source). -/
def showDetailsLabel : String := "عرض التفاصيل"

/-- The label shown when `showRawResponse` is true: localized
"hide details" (Arabic, from the source). -/
def hideDetailsLabel : String := "إخفاء التفاصيل"

/-- Class string of the raw-response panel `div`. -/
def rawPanelClassName : String :=
  "mt-1 rounded-lg bg-gray-100 p-2 text-xs text-gray-800 whitespace-pre-wrap"

/-- Class string of the disclosure button. -/
def disclosureButtonClassName : String := "mt-1 text-xs text-blue-500 hover:underline"

/-- Class string of the timestamp `span`. -/
def timeLabelClassName : String := "px-1 text-xs text-muted-foreground"

/-- The render tree produced by one evaluation of the component body,
fields in JSX order.  Children guarded by `cond && ...` are `Option`
fields (`none` = absent from the render tree). -/
structure RenderedBubble where
  rowClassName : String
  avatarClassName : String
  avatarIcon : AvatarIcon
  contentColClassName : String
  bubbleClassName : String
  bubbleText : String
  disclosureButton : Option DisclosureButton
  rawPanel : Option RawPanel
  timeLabel : Option TimeLabel
deriving DecidableEq, Repr

/-- The body of `MessageBubble`, translated clause by clause from the
JSX.  `fmt` abstracts `ts => new Date(ts).toLocaleTimeString('ar-SA',
{hour: '2-digit', minute: '2-digit'})`; `showRawResponse` is the current
value of the local `useState` boolean. -/
def MessageBubble (fmt : String → String) (p : MessageBubbleProps)
    (showRawResponse : Bool) : RenderedBubble :=
  let isUser : Bool := p.role = Role.user
  { rowClassName := cn ["flex gap-3 animate-slide-up",
      if isUser then "flex-row-reverse" else "flex-row"]
    avatarClassName := cn ["flex h-8 w-8 shrink-0 items-center justify-center rounded-full",
      if isUser then "bg-user-bubble" else "bg-muted"]
    avatarIcon := if isUser then AvatarIcon.user else AvatarIcon.bot
    contentColClassName := cn ["flex max-w-[80%] flex-col gap-1",
      if isUser then "items-end" else "items-start"]
    bubbleClassName := cn ["rounded-2xl px-4 py-2.5 text-sm leading-relaxed whitespace-pre-wrap",
      if isUser then "bg-user-bubble text-user-bubble-foreground rounded-tl-sm"
      else "bg-assistant-bubble text-assistant-bubble-foreground rounded-tr-sm"]
    bubbleText := p.content
    disclosureButton :=
      if !isUser && strTruthy p.raw_model_response then
        some { className := disclosureButtonClassName
               label := if showRawResponse then hideDetailsLabel else showDetailsLabel }
      else none
    rawPanel :=
      if !isUser && showRawResponse then
        some { className := rawPanelClassName
               text := p.raw_model_response }
      else none
    timeLabel :=
      match p.timestamp with
      | some ts =>
          if strTruthy ts then
            some { className := timeLabelClassName, text := fmt ts }
          else none
      | none => none }

/-- Initial value of the local state: `useState(false)`. -/
def initialShowRawResponse : Bool := false

/-- Effect of the button's `onClick`: `setShowRawResponse(!showRawResponse)`. -/
def toggleShowRawResponse (v : Bool) : Bool := !v

/-- One click event delivered to the component: the toggle handler runs
only when the disclosure button is actually in the render tree, otherwise
the state is unchanged (there is nothing to click). -/
def clickStep (fmt : String → String) (p : MessageBubbleProps) (v : Bool) : Bool :=
  match (MessageBubble fmt p v).disclosureButton with
  | some _ => toggleShowRawResponse v
  | none => v

/-- The local state after `n` click events on a freshly mounted instance
with fixed props. -/
def reachState (fmt : String → String) (p : MessageBubbleProps) : Nat → Bool
  | 0 => initialShowRawResponse
  | n + 1 => clickStep fmt p (reachState fmt p n)

/-- Helper: presence of the disclosure button, as a boolean of the props
alone (independent of the state and of the formatter). -/
theorem disclosureButton_isSome_eq (fmt : String → String) (p : MessageBubbleProps) (v : Bool) :
    (MessageBubble fmt p v).disclosureButton.isSome =
      ((!decide (p.role = Role.user)) && strTruthy p.raw_model_response) := by
  obtain ⟨r, c, raw, ts⟩ := p
  cases r <;> cases hs : strTruthy raw <;> simp [MessageBubble, hs]

/-- Helper: a click is a toggle exactly when the button is rendered. -/
theorem clickStep_eq (fmt : String → String) (p : MessageBubbleProps) (v : Bool) :
    clickStep fmt p v =
      if (MessageBubble fmt p v).disclosureButton.isSome then !v else v := by
  unfold clickStep toggleShowRawResponse
  cases hb : (MessageBubble fmt p v).disclosureButton <;> simp [hb]

/-- Helper: with empty `raw_model_response` the button is absent, so a
click event leaves the state unchanged. -/
theorem clickStep_empty_raw (fmt : String → String) (p : MessageBubbleProps) (v : Bool)
    (h : p.raw_model_response = "") : clickStep fmt p v = v := by
  obtain ⟨r, c, raw, ts⟩ := p
  have h' : raw = "" := h
  subst h'
  cases r <;> rfl

/-- Helper: the time-label clause of the render, isolated. -/
theorem timeLabel_eq (fmt : String → String) (p : MessageBubbleProps) (v : Bool) :
    (MessageBubble fmt p v).timeLabel =
      (match p.timestamp with
       | some ts => if strTruthy ts then some ⟨timeLabelClassName, fmt ts⟩ else none
       | none => none) := rfl

/-- C1 (counterexample): the claim says the panel is absent whenever
`raw_model_response` is empty, regardless of `visible`.  The source
guards the panel only by `!isUser && showRawResponse`, so with
`role = assistant`, empty `raw_model_response` and `visible = true` the
(empty) panel `div` is in the render tree. -/
theorem C1_counterexample :
    (⟨Role.assistant, "c", "", none⟩ : MessageBubbleProps).raw_model_response = ""
    ∧ (MessageBubble (fun _ => "") ⟨Role.assistant, "c", "", none⟩ true).rawPanel.isSome = true := by
  exact ⟨rfl, rfl⟩

/-- C1 (amended): the panel is rendered exactly when `role = assistant`
and `visible = true`, independently of `raw_model_response`; and for a
component instance with fixed props and empty `raw_model_response`, the
state `visible` stays `false` after any number of click events (the
button never renders, so nothing can toggle it), hence the panel never
appears in any reachable state. -/
theorem C1_panel_gating (fmt : String → String) (p : MessageBubbleProps) (v : Bool) (n : Nat) :
    ((MessageBubble fmt p v).rawPanel.isSome = (decide (p.role = Role.assistant) && v))
    ∧ (p.raw_model_response = "" →
        reachState fmt p n = false
        ∧ (MessageBubble fmt p (reachState fmt p n)).rawPanel = none) := by
  constructor
  · obtain ⟨r, c, raw, ts⟩ := p
    cases r <;> cases v <;> rfl
  · intro h
    have hr : ∀ m, reachState fmt p m = false := by
      intro m
      induction m with
      | zero => rfl
      | succ k ih => rw [reachState, clickStep_empty_raw fmt p _ h, ih]
    refine ⟨hr n, ?_⟩
    rw [hr n]
    obtain ⟨r, c, raw, ts⟩ := p
    cases r <;> rfl

/-- Witness for C1: at concrete props with empty `raw_model_response`,
after two clicks the state is still `false` and no panel renders. -/
theorem C1_panel_gating_witness :
    reachState (fun _ => "t") ⟨Role.assistant, "c", "", none⟩ 2 = false
    ∧ (MessageBubble (fun _ => "t") ⟨Role.assistant, "c", "", none⟩
        (reachState (fun _ => "t") ⟨Role.assistant, "c", "", none⟩ 2)).rawPanel = none :=
  (C1_panel_gating (fun _ => "t") ⟨Role.assistant, "c", "", none⟩ false 2).2 rfl

/-- C2: the disclosure control is rendered if and only if
`role = assistant` and `raw_model_response` is non-empty; the empty
string is falsy and so is treated as absent. -/
theorem C2_disclosure_control_iff (fmt : String → String) (p : MessageBubbleProps) (v : Bool) :
    ((MessageBubble fmt p v).disclosureButton.isSome =
      (decide (p.role = Role.assistant) && strTruthy p.raw_model_response))
    ∧ strTruthy "" = false := by
  refine ⟨?_, rfl⟩
  rw [disclosureButton_isSome_eq]
  obtain ⟨r, c, raw, ts⟩ := p
  cases r <;> rfl

/-- C3: when the disclosure control is rendered, one click replaces
`visible` with its negation and two consecutive clicks restore the
original value. -/
theorem C3_toggle_involution (fmt : String → String) (p : MessageBubbleProps) (v : Bool)
    (h : (MessageBubble fmt p v).disclosureButton.isSome = true) :
    clickStep fmt p v = !v ∧ clickStep fmt p (clickStep fmt p v) = v := by
  have hc1 : clickStep fmt p v = !v := by
    rw [clickStep_eq, h]
    rfl
  have h' : (MessageBubble fmt p (!v)).disclosureButton.isSome = true := by
    rw [disclosureButton_isSome_eq]
    rw [disclosureButton_isSome_eq] at h
    exact h
  refine ⟨hc1, ?_⟩
  rw [hc1, clickStep_eq, h']
  simp

/-- Witness for C3: at concrete assistant props with non-empty raw
response, clicking twice from `false` returns to `false`. -/
theorem C3_toggle_involution_witness :
    clickStep (fun _ => "t") ⟨Role.assistant, "hello", "raw", none⟩ false = !false
    ∧ clickStep (fun _ => "t") ⟨Role.assistant, "hello", "raw", none⟩
        (clickStep (fun _ => "t") ⟨Role.assistant, "hello", "raw", none⟩ false) = false :=
  C3_toggle_involution (fun _ => "t") ⟨Role.assistant, "hello", "raw", none⟩ false (by decide)

/-- C4: the local state starts at `false` (`useState(false)`), so the
initial render has no panel, and whenever the control is present its
label is the localized "show details" string. -/
theorem C4_initial_state (fmt : String → String) (p : MessageBubbleProps) :
    initialShowRawResponse = false
    ∧ (MessageBubble fmt p initialShowRawResponse).rawPanel = none
    ∧ (MessageBubble fmt p initialShowRawResponse).disclosureButton.all
        (fun b => b.label == showDetailsLabel) = true := by
  refine ⟨rfl, ?_, ?_⟩ <;>
    · obtain ⟨r, c, raw, ts⟩ := p
      cases r <;> cases hs : strTruthy raw <;>
        simp [MessageBubble, initialShowRawResponse, hs, Option.all]

/-- C5: whenever the disclosure control is rendered, its label is the
localized "hide details" string when `visible` is true and the localized
"show details" string when `visible` is false. -/
theorem C5_label_of_visible (fmt : String → String) (p : MessageBubbleProps) (v : Bool) :
    (MessageBubble fmt p v).disclosureButton.all
      (fun b => b.label == (if v then hideDetailsLabel else showDetailsLabel)) = true := by
  obtain ⟨r, c, raw, ts⟩ := p
  cases r <;> cases v <;> cases hs : strTruthy raw <;>
    simp [MessageBubble, hs, Option.all]

/-- C6 (counterexample): the claim says a time label is rendered if and
only if a timestamp is supplied; with the supplied timestamp `""` (a
present prop) the truthy guard fails and no label renders. -/
theorem C6_counterexample :
    (⟨Role.user, "c", "", some ""⟩ : MessageBubbleProps).timestamp.isSome = true
    ∧ (MessageBubble (fun _ => "00:00") ⟨Role.user, "c", "", some ""⟩ false).timeLabel = none := by
  exact ⟨rfl, rfl⟩

/-- C6 (amended): a time label is rendered if and only if a non-empty
timestamp is supplied; when a non-empty timestamp is supplied the label
text is the locale formatter applied to it, and with no timestamp no
label renders. -/
theorem C6_time_label (fmt : String → String) (p : MessageBubbleProps) (v : Bool) :
    ((MessageBubble fmt p v).timeLabel.isSome = optStrTruthy p.timestamp)
    ∧ (∀ ts, p.timestamp = some ts → ts ≠ "" →
        (MessageBubble fmt p v).timeLabel = some ⟨timeLabelClassName, fmt ts⟩)
    ∧ (p.timestamp = none → (MessageBubble fmt p v).timeLabel = none) := by
  refine ⟨?_, ?_, ?_⟩
  · rw [timeLabel_eq]
    cases hts : p.timestamp with
    | none => rfl
    | some ts => cases hs : strTruthy ts <;> simp [hs, optStrTruthy]
  · intro ts hts hne
    rw [timeLabel_eq, hts]
    simp [strTruthy, hne]
  · intro hts
    rw [timeLabel_eq, hts]

/-- Witness for C6: with the identity formatter and a concrete non-empty
timestamp, the rendered label carries that timestamp through the
formatter. -/
theorem C6_time_label_witness :
    (MessageBubble (fun s => s) ⟨Role.assistant, "c", "", some "2024-01-01T13:05:00Z"⟩
        false).timeLabel
      = some ⟨timeLabelClassName, (fun s => s) "2024-01-01T13:05:00Z"⟩ :=
  (C6_time_label (fun s => s) ⟨Role.assistant, "c", "", some "2024-01-01T13:05:00Z"⟩
    false).2.1 "2024-01-01T13:05:00Z" rfl (by decide)

/-- C7: every supplied non-empty timestamp string, valid or not, is
passed unguarded to the locale formatter: for an arbitrary total
formatter `fmt` the rendered label text is exactly `fmt ts` — there is
no validation branch and no failure path. -/
theorem C7_unguarded_formatter (fmt : String → String) (p : MessageBubbleProps) (v : Bool)
    (ts : String) (h : p.timestamp = some ts) (hne : ts ≠ "") :
    (MessageBubble fmt p v).timeLabel.map TimeLabel.text = some (fmt ts) := by
  rw [timeLabel_eq, h]
  simp [strTruthy, hne]

/-- Witness for C7: an unparseable timestamp flows straight into a
formatter that renders it as the platform's "Invalid Date" text. -/
theorem C7_unguarded_formatter_witness :
    (MessageBubble (fun _ => "Invalid Date")
        ⟨Role.user, "hi", "", some "definitely-not-a-date"⟩ false).timeLabel.map TimeLabel.text
      = some ((fun _ => "Invalid Date") "definitely-not-a-date") :=
  C7_unguarded_formatter (fun _ => "Invalid Date")
    ⟨Role.user, "hi", "", some "definitely-not-a-date"⟩ false
    "definitely-not-a-date" rfl (by decide)

/-- C8: the bubble body is exactly `content`, rendered in a
whitespace-preserving container (`whitespace-pre-wrap` class), and the
panel, when present, carries exactly `raw_model_response` in a
whitespace-preserving container. -/
theorem C8_verbatim_content (fmt : String → String) (p : MessageBubbleProps) (v : Bool) :
    (MessageBubble fmt p v).bubbleText = p.content
    ∧ (∃ pre post, (MessageBubble fmt p v).bubbleClassName = pre ++ ("whitespace-pre-wrap" ++ post))
    ∧ (MessageBubble fmt p v).rawPanel.all
        (fun pl => pl.text == p.raw_model_response && (pl.className == rawPanelClassName)) = true
    ∧ (∃ pre post, rawPanelClassName = pre ++ ("whitespace-pre-wrap" ++ post)) := by
  obtain ⟨r, c, raw, ts⟩ := p
  refine ⟨rfl, ?_, ?_, "mt-1 rounded-lg bg-gray-100 p-2 text-xs text-gray-800 ", "", rfl⟩
  · cases r
    · exact ⟨"rounded-2xl px-4 py-2.5 text-sm leading-relaxed ",
        " bg-user-bubble text-user-bubble-foreground rounded-tl-sm", rfl⟩
    · exact ⟨"rounded-2xl px-4 py-2.5 text-sm leading-relaxed ",
        " bg-assistant-bubble text-assistant-bubble-foreground rounded-tr-sm", rfl⟩
  · cases r <;> cases v <;> simp [MessageBubble, Option.all, rawPanelClassName]

/-- C9: for `role = user` the render tree is independent of
`raw_model_response` and of the local `visible` state: any two runs
agreeing on `content` and `timestamp` produce identical trees. -/
theorem C9_user_noninterference (fmt : String → String) (c : String) (ts : Option String)
    (raw1 raw2 : String) (v1 v2 : Bool) :
    MessageBubble fmt ⟨Role.user, c, raw1, ts⟩ v1
      = MessageBubble fmt ⟨Role.user, c, raw2, ts⟩ v2 := rfl

/-- C10: a supplied empty-string timestamp behaves exactly like an
absent one: no time label renders, and the whole render output does not
depend on the formatter at all (so the formatter is never consulted). -/
theorem C10_empty_timestamp (fmt fmt' : String → String) (p : MessageBubbleProps) (v : Bool)
    (h : p.timestamp = some "") :
    (MessageBubble fmt p v).timeLabel = none
    ∧ MessageBubble fmt p v = MessageBubble fmt' p v := by
  obtain ⟨r, c, raw, ts⟩ := p
  have h' : ts = some "" := h
  subst h'
  exact ⟨rfl, rfl⟩

/-- Witness for C10: at concrete props with `timestamp = ""`, two
different formatters give identical render output and no label. -/
theorem C10_empty_timestamp_witness :
    (MessageBubble (fun _ => "A") ⟨Role.assistant, "c", "r", some ""⟩ true).timeLabel = none
    ∧ MessageBubble (fun _ => "A") ⟨Role.assistant, "c", "r", some ""⟩ true
        = MessageBubble (fun _ => "B") ⟨Role.assistant, "c", "r", some ""⟩ true :=
  C10_empty_timestamp (fun _ => "A") (fun _ => "B") ⟨Role.assistant, "c", "r", some ""⟩ true rfl

end MessageBubbleSpec
